import Mathlib

/-!
Verification development for the Dielemma proof-of-life escrow programs.

The repository holds two snapshots of the same Solana program:
  * `src/sol-program/src/lib.rs`      — the hardened iteration (namespace `Sol`);
  * `src/dielemma-program/src/lib.rs` — the earlier iteration (namespace `Dlm`).

Shallow embedding conventions, shared by both namespaces:
  * `Pubkey` values are modelled as `Nat` atoms; the concrete base58 constants
    (system program, SPL token program, rent sysvar, WSOL mint, official DLM
    mint) are abstracted to distinct `Nat` constants — the programs only ever
    compare them for equality.
  * `find_program_address` is an external hash; each handler receives the
    derived PDA (and bump) as an input field and checks the caller-supplied
    account key against it, exactly as the source recomputes and compares.
  * Account contents that a handler reads (the borsh-decoded `DepositAccount`,
    the `owner` / `mint` / `amount` fields unpacked from SPL token accounts,
    lamport balances, the clock) are input fields of the handler's context
    structure.
  * A handler returns `Except Err (List (Effect ρ))`: either the error of the
    first failing check (each distinct `return Err(...)` site of the source is
    a distinct `Err` constructor, mapped to its Solana `ProgramError` by
    `Err.toProgramError`) or, on success, the ordered list of externally
    visible effects (CPI invocations and the record write) the handler issues.
    A failed Solana transaction commits nothing, so an `Except.error` result
    carries no effects.
  * `i64` arithmetic that the source performs (`now - last_proof_timestamp`,
    `timeout_seconds as i64`) is modelled with explicit two's-complement
    wrapping on `Int` (`wrapI64`); timestamps themselves are `Int`.
  * Byte strings (`instruction_data`, seeds, the 64-byte burn signature) are
    `List Nat`; `String` seeds are kept as their UTF-8 bytes, with the
    `str::from_utf8` validity check modelled by `isValidUtf8`.
-/

/-- The `solana_program::program_error::ProgramError` variants this program
returns. -/
inductive ProgramError where
  | invalidInstructionData
  | invalidAccountData
  | missingRequiredSignature
  | incorrectProgramId
  | accountAlreadyInitialized
deriving DecidableEq

/-- One constructor per distinct error-return site of the two programs (the
source distinguishes the sites by their `msg!` text while reusing generic
`ProgramError` codes; `Err.toProgramError` records the code actually
returned). -/
inductive Err where
  | missingDepositorSignature
  | invalidSystemProgram
  | invalidRentSysvar
  | invalidTokenProgram
  | zeroAmount
  | invalidTimeout
  | fundingOwnerMismatch
  | fundingMintMismatch
  | pdaMismatch
  | tokenPdaMismatch
  | alreadyInitialized
  | notDepositor
  | alreadyClosed
  | replayedProof
  | wrongOfficialMint
  | tokenOwnerMismatch
  | notReceiver
  | receiverNotSigner
  | futureTimestamp
  | timestampTooOld
  | notExpired
  | notAuthority
  | authorityNotSigner
  | notSettled
deriving DecidableEq

/-- The `ProgramError` code each error site returns in the source. -/
def Err.toProgramError : Err → ProgramError
  | .missingDepositorSignature => .missingRequiredSignature
  | .invalidSystemProgram => .incorrectProgramId
  | .invalidRentSysvar => .invalidAccountData
  | .invalidTokenProgram => .incorrectProgramId
  | .zeroAmount => .invalidInstructionData
  | .invalidTimeout => .invalidInstructionData
  | .fundingOwnerMismatch => .invalidAccountData
  | .fundingMintMismatch => .invalidAccountData
  | .pdaMismatch => .invalidAccountData
  | .tokenPdaMismatch => .invalidAccountData
  | .alreadyInitialized => .accountAlreadyInitialized
  | .notDepositor => .missingRequiredSignature
  | .alreadyClosed => .invalidAccountData
  | .replayedProof => .invalidInstructionData
  | .wrongOfficialMint => .invalidAccountData
  | .tokenOwnerMismatch => .invalidAccountData
  | .notReceiver => .missingRequiredSignature
  | .receiverNotSigner => .missingRequiredSignature
  | .futureTimestamp => .invalidAccountData
  | .timestampTooOld => .invalidAccountData
  | .notExpired => .invalidAccountData
  | .notAuthority => .missingRequiredSignature
  | .authorityNotSigner => .missingRequiredSignature
  | .notSettled => .invalidAccountData

/-- Abstract atom for `system_program::id()`. -/
def systemProgramId : Nat := 101

/-- Abstract atom for `spl_token::id()`. -/
def splTokenId : Nat := 102

/-- Abstract atom for `Rent::id()` (the rent sysvar address). -/
def rentSysvarId : Nat := 103

/-- Little-endian byte-list to `Nat` (used for `u32::from_le_bytes`,
`u64::from_le_bytes` and `Pubkey::try_from` on byte slices). -/
def leNat (l : List Nat) : Nat :=
  l.foldr (fun b acc => b + 256 * acc) 0

/-- Whether a byte is a UTF-8 continuation byte (`0x80..=0xBF`). -/
def contByte (b : Nat) : Bool :=
  decide (0x80 ≤ b ∧ b ≤ 0xBF)

/-- UTF-8 validity of a byte list, modelling the `std::str::from_utf8`
success condition. -/
def isValidUtf8 : List Nat → Bool
  | [] => true
  | b :: rest =>
    if b ≤ 0x7F then isValidUtf8 rest
    else if b < 0xC2 then false
    else if b ≤ 0xDF then
      match rest with
      | [] => false
      | c1 :: r2 => contByte c1 && isValidUtf8 r2
    else if b ≤ 0xEF then
      match rest with
      | c1 :: c2 :: r2 =>
        (if b = 0xE0 then decide (0xA0 ≤ c1 ∧ c1 ≤ 0xBF)
         else if b = 0xED then decide (0x80 ≤ c1 ∧ c1 ≤ 0x9F)
         else contByte c1) && contByte c2 && isValidUtf8 r2
      | _ => false
    else if b ≤ 0xF4 then
      match rest with
      | c1 :: c2 :: c3 :: r2 =>
        (if b = 0xF0 then decide (0x90 ≤ c1 ∧ c1 ≤ 0xBF)
         else if b = 0xF4 then decide (0x80 ≤ c1 ∧ c1 ≤ 0x8F)
         else contByte c1) && contByte c2 && contByte c3 && isValidUtf8 r2
      | _ => false
    else false

/-- Two's-complement wrap of an integer into the `i64` range
`[-2^63, 2^63)`; Rust release builds wrap silently on overflow. -/
def wrapI64 (x : Int) : Int :=
  (x + 2 ^ 63) % 2 ^ 64 - 2 ^ 63

/-- The `u64 as i64` cast (two's-complement reinterpretation). -/
def u64ToI64 (n : Nat) : Int :=
  wrapI64 n

/-- Wrapping `i64` subtraction, as performed by
`clock.unix_timestamp - deposit_state.last_proof_timestamp` in a release
build. -/
def subI64 (a b : Int) : Int :=
  wrapI64 (a - b)

theorem wrapI64_eq_self (x : Int) (h1 : -(2 ^ 63) ≤ x) (h2 : x < 2 ^ 63) :
    wrapI64 x = x := by
  unfold wrapI64
  have h3 : (0 : Int) ≤ x + 2 ^ 63 := by omega
  have h4 : x + 2 ^ 63 < 2 ^ 64 := by omega
  rw [Int.emod_eq_of_lt h3 h4]
  omega

theorem u64ToI64_eq_self (n : Nat) (h : n < 2 ^ 63) : u64ToI64 n = (n : Int) := by
  unfold u64ToI64
  apply wrapI64_eq_self
  · omega
  · exact_mod_cast h

theorem subI64_eq_sub (a b : Int) (h1 : -(2 ^ 63) ≤ a - b) (h2 : a - b < 2 ^ 63) :
    subI64 a b = a - b :=
  wrapI64_eq_self _ h1 h2

/-- Externally visible side effects a handler issues on success, in issue
order: CPI invocations (`create_account`, `initialize_account`, `transfer`,
`burn`) and persisting the borsh-serialized record (`persist`); `drainLamports`
is the lamport move that deallocates the deposit account in `CloseAccount`.
`ρ` is the record type of the respective program snapshot. -/
inductive Effect (ρ : Type) where
  | createAccount (funder newAccount ownerProgram lamports space : Nat)
  | initTokenAccount (account mint authority : Nat)
  | tokenTransfer (source dest authority amount : Nat)
  | burnTokens (account mint authority amount : Nat)
  | persist (state : ρ)
  | drainLamports (account recipient amount : Nat)
deriving DecidableEq

instance {ε α : Type} [DecidableEq ε] [DecidableEq α] : DecidableEq (Except ε α) :=
  fun a b =>
    match a, b with
    | .error x, .error y =>
      if h : x = y then .isTrue (by rw [h]) else .isFalse (by simp [h])
    | .error _, .ok _ => .isFalse (by simp)
    | .ok _, .error _ => .isFalse (by simp)
    | .ok x, .ok y =>
      if h : x = y then .isTrue (by rw [h]) else .isFalse (by simp [h])

/-- Checks, scanning an effect trace left to right, that every
`tokenTransfer` is issued at a point where the most recently persisted record
(or the initial record, whose closed flag is the first argument) has its
closed flag set. -/
def transfersAfterClose {ρ : Type} (isClosedOf : ρ → Bool) :
    Bool → List (Effect ρ) → Bool
  | _, [] => true
  | _, .persist r :: rest => transfersAfterClose isClosedOf (isClosedOf r) rest
  | c, .tokenTransfer _ _ _ _ :: rest => c && transfersAfterClose isClosedOf c rest
  | c, _ :: rest => transfersAfterClose isClosedOf c rest

namespace Sol

/-- `MAX_DEPOSIT_SEED_LENGTH` of `src/sol-program/src/lib.rs`. -/
def MAX_DEPOSIT_SEED_LENGTH : Nat := 32

/-- `MIN_TIMEOUT_SECONDS` (1 minute) of `process_deposit`. -/
def MIN_TIMEOUT_SECONDS : Nat := 60

/-- `MAX_TIMEOUT_SECONDS` (10 years) of `process_deposit`. -/
def MAX_TIMEOUT_SECONDS : Nat := 315360000

/-- `MIN_VALID_TIMESTAMP` (~August 2020) of `process_claim`. -/
def MIN_VALID_TIMESTAMP : Int := 1598000000

/-- `DEPOSIT_ACCOUNT_SIZE` (223 bytes). -/
def DEPOSIT_ACCOUNT_SIZE : Nat :=
  32 + 32 + 32 + 8 + 8 + 8 + 1 + 1 + 4 + MAX_DEPOSIT_SEED_LENGTH + 1 + 64

/-- `spl_token::state::Account::LEN`. -/
def TOKEN_ACCOUNT_LEN : Nat := 165

/-- Abstract atom for the `WSOL_MINT` pubkey constant. -/
def wsolMint : Nat := 104

/-- The on-chain `DepositAccount` state of the hardened program.
`deposit_seed` is the fixed 32-byte zero-padded array. -/
structure DepositAccount where
  depositor : Nat
  receiver : Nat
  token_mint : Nat
  amount : Nat
  last_proof_timestamp : Int
  timeout_seconds : Nat
  bump : Nat
  is_closed : Bool
  deposit_seed_len : Nat
  deposit_seed : List Nat
  last_burn_signature : Option (List Nat)
deriving DecidableEq

/-- Inputs of `process_deposit` (`src/sol-program/src/lib.rs:349`): the seven
relevant fields of the seven accounts, the instruction parameters, the clock value, the
rent amounts, and the two PDA derivations supplied by the runtime. -/
structure DepositCtx where
  programId : Nat
  depositorKey : Nat
  depositorIsSigner : Bool
  depositAccountKey : Nat
  depositAccountLamports : Nat
  depositorTokenKey : Nat
  depositorTokenOwner : Nat
  depositorTokenMint : Nat
  depositTokenKey : Nat
  tokenProgramKey : Nat
  systemProgramKey : Nat
  rentSysvarKey : Nat
  rentRecordLamports : Nat
  rentTokenLamports : Nat
  depositPda : Nat
  bump : Nat
  tokenPda : Nat
  tokenBump : Nat
  now : Int
  deposit_seed : List Nat
  receiver : Nat
  amount : Nat
  timeout_seconds : Nat
deriving DecidableEq

/-- `process_deposit` of the hardened program, checks in source order.
The `tokenPdaMismatch` check is issued in the source after the first
`create_account` CPI; since a failing transaction commits no effects, the
model returns the error with no effect trace, and the effect list of a
successful run is the full CPI sequence in issue order. -/
def process_deposit (c : DepositCtx) : Except Err (List (Effect DepositAccount)) :=
  if c.depositorIsSigner = false then .error .missingDepositorSignature
  else if c.systemProgramKey ≠ systemProgramId then .error .invalidSystemProgram
  else if c.rentSysvarKey ≠ rentSysvarId then .error .invalidRentSysvar
  else if c.tokenProgramKey ≠ splTokenId then .error .invalidTokenProgram
  else if c.amount = 0 then .error .zeroAmount
  else if c.timeout_seconds < MIN_TIMEOUT_SECONDS ∨ MAX_TIMEOUT_SECONDS < c.timeout_seconds then
    .error .invalidTimeout
  else if c.depositorTokenOwner ≠ c.depositorKey then .error .fundingOwnerMismatch
  else if c.depositorTokenMint ≠ wsolMint then .error .fundingMintMismatch
  else if c.depositAccountKey ≠ c.depositPda then .error .pdaMismatch
  else if 0 < c.depositAccountLamports then .error .alreadyInitialized
  else if c.depositTokenKey ≠ c.tokenPda then .error .tokenPdaMismatch
  else
    .ok [ .createAccount c.depositorKey c.depositAccountKey c.programId
            (max c.rentRecordLamports 1) DEPOSIT_ACCOUNT_SIZE,
          .createAccount c.depositorKey c.depositTokenKey splTokenId
            c.rentTokenLamports TOKEN_ACCOUNT_LEN,
          .initTokenAccount c.depositTokenKey wsolMint c.depositAccountKey,
          .tokenTransfer c.depositorTokenKey c.depositTokenKey c.depositorKey c.amount,
          .persist
            { depositor := c.depositorKey
              receiver := c.receiver
              token_mint := wsolMint
              amount := c.amount
              last_proof_timestamp := c.now
              timeout_seconds := c.timeout_seconds
              bump := c.bump
              is_closed := false
              deposit_seed_len := c.deposit_seed.length
              deposit_seed :=
                c.deposit_seed ++
                  List.replicate (MAX_DEPOSIT_SEED_LENGTH - c.deposit_seed.length) 0
              last_burn_signature := none } ]

/-- Inputs of `process_proof_of_life` (`src/sol-program/src/lib.rs:585`). -/
structure PolCtx where
  depositorKey : Nat
  depositorIsSigner : Bool
  depositAccountKey : Nat
  depositRecord : DepositAccount
  depositPda : Nat
  now : Int
  deposit_seed : List Nat
  burn_signature : List Nat
deriving DecidableEq

/-- `process_proof_of_life` of the hardened program, checks in source order:
signer, PDA, depositor identity, closed flag, then the replay guard comparing
the supplied burn signature against the stored `last_burn_signature`. -/
def process_proof_of_life (c : PolCtx) : Except Err (List (Effect DepositAccount)) :=
  if c.depositorIsSigner = false then .error .missingDepositorSignature
  else if c.depositAccountKey ≠ c.depositPda then .error .pdaMismatch
  else if c.depositRecord.depositor ≠ c.depositorKey then .error .notDepositor
  else if c.depositRecord.is_closed then .error .alreadyClosed
  else
    match c.depositRecord.last_burn_signature with
    | some lastSig =>
      if c.burn_signature = lastSig then .error .replayedProof
      else
        .ok [ .persist { c.depositRecord with
                           last_proof_timestamp := c.now
                           last_burn_signature := some c.burn_signature } ]
    | none =>
      .ok [ .persist { c.depositRecord with
                         last_proof_timestamp := c.now
                         last_burn_signature := some c.burn_signature } ]

/-- Inputs of `process_withdraw` (`src/sol-program/src/lib.rs:652`). The
depositor account's `is_signer` attribute is part of the context, but the
source never reads it. -/
structure WithdrawCtx where
  depositorKey : Nat
  depositorIsSigner : Bool
  depositAccountKey : Nat
  depositRecord : DepositAccount
  depositorTokenKey : Nat
  depositorTokenOwner : Nat
  depositTokenKey : Nat
  depositTokenBalance : Nat
  tokenProgramKey : Nat
  depositPda : Nat
  deposit_seed : List Nat
deriving DecidableEq

/-- `process_withdraw` of the hardened program, checks in source order:
receiving token-account ownership, PDA, depositor identity, closed flag; then
it persists the record with `is_closed = true` and only afterwards issues the
vault transfer of the vault's current balance. There is no
`depositor.is_signer` check in the source. -/
def process_withdraw (c : WithdrawCtx) : Except Err (List (Effect DepositAccount)) :=
  if c.depositorTokenOwner ≠ c.depositorKey then .error .tokenOwnerMismatch
  else if c.depositAccountKey ≠ c.depositPda then .error .pdaMismatch
  else if c.depositRecord.depositor ≠ c.depositorKey then .error .notDepositor
  else if c.depositRecord.is_closed then .error .alreadyClosed
  else
    .ok [ .persist { c.depositRecord with is_closed := true },
          .tokenTransfer c.depositTokenKey c.depositorTokenKey c.depositAccountKey
            c.depositTokenBalance ]

/-- Inputs of `process_claim` (`src/sol-program/src/lib.rs:747`). The PDA is
derived from the record's stored depositor and the supplied seed. -/
structure ClaimCtx where
  receiverKey : Nat
  receiverIsSigner : Bool
  depositAccountKey : Nat
  depositRecord : DepositAccount
  receiverTokenKey : Nat
  receiverTokenOwner : Nat
  depositTokenKey : Nat
  depositTokenBalance : Nat
  tokenProgramKey : Nat
  depositPda : Nat
  now : Int
  deposit_seed : List Nat
deriving DecidableEq

/-- `process_claim` of the hardened program, checks in source order: receiving
token-account ownership, PDA, receiver identity, receiver signature, closed
flag, then the two timestamp sanity guards (future, pre-floor), then the
expiry comparison `elapsed < timeout_seconds as i64`; on success it persists
`is_closed = true` before issuing the vault transfer. -/
def process_claim (c : ClaimCtx) : Except Err (List (Effect DepositAccount)) :=
  if c.receiverTokenOwner ≠ c.receiverKey then .error .tokenOwnerMismatch
  else if c.depositAccountKey ≠ c.depositPda then .error .pdaMismatch
  else if c.depositRecord.receiver ≠ c.receiverKey then .error .notReceiver
  else if c.receiverIsSigner = false then .error .receiverNotSigner
  else if c.depositRecord.is_closed then .error .alreadyClosed
  else if c.now < c.depositRecord.last_proof_timestamp then .error .futureTimestamp
  else if c.depositRecord.last_proof_timestamp < MIN_VALID_TIMESTAMP then
    .error .timestampTooOld
  else if subI64 c.now c.depositRecord.last_proof_timestamp <
      u64ToI64 c.depositRecord.timeout_seconds then .error .notExpired
  else
    .ok [ .persist { c.depositRecord with is_closed := true },
          .tokenTransfer c.depositTokenKey c.receiverTokenKey c.depositAccountKey
            c.depositTokenBalance ]

/-- Inputs of `process_close_account` (`src/sol-program/src/lib.rs:874`). -/
structure CloseCtx where
  authorityKey : Nat
  authorityIsSigner : Bool
  depositAccountKey : Nat
  depositRecord : DepositAccount
  refundKey : Nat
  depositLamports : Nat
  depositPda : Nat
  deposit_seed : List Nat
deriving DecidableEq

/-- `process_close_account` of the hardened program, checks in source order:
PDA, authority identity (depositor or receiver), authority signature, and the
settled (`is_closed`) precondition; on success it moves the account's lamports
to the refund recipient, deallocating the record. -/
def process_close_account (c : CloseCtx) : Except Err (List (Effect DepositAccount)) :=
  if c.depositAccountKey ≠ c.depositPda then .error .pdaMismatch
  else if c.depositRecord.depositor ≠ c.authorityKey ∧
      c.depositRecord.receiver ≠ c.authorityKey then .error .notAuthority
  else if c.authorityIsSigner = false then .error .authorityNotSigner
  else if c.depositRecord.is_closed = false then .error .notSettled
  else .ok [ .drainLamports c.depositAccountKey c.refundKey c.depositLamports ]

/-- The operation a successful parse of `process_instruction`'s
`instruction_data` dispatches to, with the payload fields each handler
receives. -/
inductive Parsed where
  | deposit (seed : List Nat) (receiver : Nat) (amount : Nat) (timeout_seconds : Nat)
  | proofOfLife (seed : List Nat) (burn_signature : List Nat)
  | withdraw (seed : List Nat)
  | claim (seed : List Nat)
  | closeAccount (seed : List Nat)
deriving DecidableEq

/-- The length-prefixed seed parse that every branch of the hardened
`process_instruction` repeats verbatim (`src/sol-program/src/lib.rs:183`):
buffer-length guard, declared-length bounds check against
`MAX_DEPOSIT_SEED_LENGTH` and the remaining buffer, UTF-8 validation, and the
redundant re-check of the byte length (whose error code `rerr` is
`InvalidAccountData` in the `ProofOfLife` branch and
`InvalidInstructionData` in the other four). -/
def parseSeedChecked (data : List Nat) (rerr : ProgramError) :
    Except ProgramError (List Nat) :=
  if data.length < 4 then .error .invalidInstructionData
  else
    let seed_len := leNat (data.take 4)
    if MAX_DEPOSIT_SEED_LENGTH < seed_len ∨ data.length < 4 + seed_len then
      .error .invalidInstructionData
    else
      let seedBytes := (data.drop 4).take seed_len
      if isValidUtf8 seedBytes = false then .error .invalidInstructionData
      else if MAX_DEPOSIT_SEED_LENGTH < seedBytes.length then .error rerr
      else .ok seedBytes

/-- The instruction decoder of the hardened `process_instruction`
(`src/sol-program/src/lib.rs:159`): the 4-byte little-endian discriminant
followed by the discriminant-specific payload, with every length-prefixed
field bounds-checked before any handler runs. -/
def parseInstruction (instructionData : List Nat) : Except ProgramError Parsed :=
  if instructionData.length < 4 then .error .invalidInstructionData
  else
    let data := instructionData.drop 4
    match leNat (instructionData.take 4) with
    | 0 =>
      match parseSeedChecked data .invalidInstructionData with
      | .error e => .error e
      | .ok seed =>
        if data.length < 4 + seed.length + 48 then .error .invalidInstructionData
        else
          let rest := data.drop (4 + seed.length)
          .ok (.deposit seed (leNat (rest.take 32))
            (leNat ((rest.drop 32).take 8)) (leNat ((rest.drop 40).take 8)))
    | 1 =>
      match parseSeedChecked data .invalidAccountData with
      | .error e => .error e
      | .ok seed =>
        if data.length < 4 + seed.length + 64 then .error .invalidInstructionData
        else .ok (.proofOfLife seed ((data.drop (4 + seed.length)).take 64))
    | 2 =>
      match parseSeedChecked data .invalidInstructionData with
      | .error e => .error e
      | .ok seed => .ok (.withdraw seed)
    | 3 =>
      match parseSeedChecked data .invalidInstructionData with
      | .error e => .error e
      | .ok seed => .ok (.claim seed)
    | 4 =>
      match parseSeedChecked data .invalidInstructionData with
      | .error e => .error e
      | .ok seed => .ok (.closeAccount seed)
    | _ => .error .invalidInstructionData

end Sol

namespace Dlm

/-- `MAX_DEPOSIT_SEED_LENGTH` of `src/dielemma-program/src/lib.rs`. -/
def MAX_DEPOSIT_SEED_LENGTH : Nat := 32

/-- `DEPOSIT_ACCOUNT_SIZE` of the earlier program (158 bytes; no burn
signature field). -/
def DEPOSIT_ACCOUNT_SIZE : Nat :=
  32 + 32 + 32 + 8 + 8 + 8 + 1 + 1 + 4 + MAX_DEPOSIT_SEED_LENGTH

/-- `spl_token::state::Account::LEN`. -/
def TOKEN_ACCOUNT_LEN : Nat := 165

/-- Abstract atom for the parsed `OFFICIAL_DLM_TOKEN_MINT` pubkey. -/
def officialDlmMint : Nat := 105

/-- `ProofOfLife`'s burn amount: 1 DLM token at 9 decimals. -/
def BURN_AMOUNT : Nat := 1000000000

/-- The on-chain `DepositAccount` state of the earlier program (no
`last_burn_signature` field). -/
structure DepositAccount where
  depositor : Nat
  receiver : Nat
  token_mint : Nat
  amount : Nat
  last_proof_timestamp : Int
  timeout_seconds : Nat
  bump : Nat
  is_closed : Bool
  deposit_seed_len : Nat
  deposit_seed : List Nat
deriving DecidableEq

/-- Inputs of `process_deposit` (`src/dielemma-program/src/lib.rs:253`).
The depositor account's `is_signer` attribute is part of the context, but
this iteration never reads it. -/
structure DepositCtx where
  programId : Nat
  depositorKey : Nat
  depositorIsSigner : Bool
  depositAccountKey : Nat
  depositAccountLamports : Nat
  depositorTokenKey : Nat
  depositTokenKey : Nat
  tokenMintKey : Nat
  tokenProgramKey : Nat
  systemProgramKey : Nat
  rentRecordLamports : Nat
  rentTokenLamports : Nat
  depositPda : Nat
  bump : Nat
  tokenPda : Nat
  tokenBump : Nat
  now : Int
  deposit_seed : List Nat
  receiver : Nat
  amount : Nat
  timeout_seconds : Nat
deriving DecidableEq

/-- `process_deposit` of the earlier program, checks in source order: system
program, token program, deposit PDA, already-initialized lamport probe, then
(after the first `create_account` CPI in the source) the token-account PDA.
It performs no signer check, no `amount > 0` check, no `timeout_seconds`
bounds check, and no ownership or mint check on the funding token account.
As in the `Sol` namespace, an error result carries no effects because a
failing transaction commits nothing. -/
def process_deposit (c : DepositCtx) : Except Err (List (Effect DepositAccount)) :=
  if c.systemProgramKey ≠ systemProgramId then .error .invalidSystemProgram
  else if c.tokenProgramKey ≠ splTokenId then .error .invalidTokenProgram
  else if c.depositAccountKey ≠ c.depositPda then .error .pdaMismatch
  else if 0 < c.depositAccountLamports then .error .alreadyInitialized
  else if c.depositTokenKey ≠ c.tokenPda then .error .tokenPdaMismatch
  else
    .ok [ .createAccount c.depositorKey c.depositAccountKey c.programId
            (max c.rentRecordLamports 1) DEPOSIT_ACCOUNT_SIZE,
          .createAccount c.depositorKey c.depositTokenKey splTokenId
            c.rentTokenLamports TOKEN_ACCOUNT_LEN,
          .initTokenAccount c.depositTokenKey c.tokenMintKey c.depositAccountKey,
          .tokenTransfer c.depositorTokenKey c.depositTokenKey c.depositorKey c.amount,
          .persist
            { depositor := c.depositorKey
              receiver := c.receiver
              token_mint := c.tokenMintKey
              amount := c.amount
              last_proof_timestamp := c.now
              timeout_seconds := c.timeout_seconds
              bump := c.bump
              is_closed := false
              deposit_seed_len := c.deposit_seed.length
              deposit_seed :=
                c.deposit_seed ++
                  List.replicate (MAX_DEPOSIT_SEED_LENGTH - c.deposit_seed.length) 0 } ]

/-- Inputs of `process_withdraw` (`src/dielemma-program/src/lib.rs:543`).
`is_signer` is carried but never read by this iteration, which also performs
no ownership check on the receiving token account. -/
structure WithdrawCtx where
  depositorKey : Nat
  depositorIsSigner : Bool
  depositAccountKey : Nat
  depositRecord : DepositAccount
  depositorTokenKey : Nat
  depositTokenKey : Nat
  depositTokenBalance : Nat
  tokenProgramKey : Nat
  depositPda : Nat
  deposit_seed : List Nat
deriving DecidableEq

/-- `process_withdraw` of the earlier program: PDA, depositor identity,
closed flag; then it issues the vault transfer of the current balance FIRST
and persists `is_closed = true` only afterwards. -/
def process_withdraw (c : WithdrawCtx) : Except Err (List (Effect DepositAccount)) :=
  if c.depositAccountKey ≠ c.depositPda then .error .pdaMismatch
  else if c.depositRecord.depositor ≠ c.depositorKey then .error .notDepositor
  else if c.depositRecord.is_closed then .error .alreadyClosed
  else
    .ok [ .tokenTransfer c.depositTokenKey c.depositorTokenKey c.depositAccountKey
            c.depositTokenBalance,
          .persist { c.depositRecord with is_closed := true } ]

/-- Inputs of `process_claim` (`src/dielemma-program/src/lib.rs:623`). This
iteration reads neither the receiver's `is_signer` attribute nor the
receiving token account's owner. -/
structure ClaimCtx where
  receiverKey : Nat
  receiverIsSigner : Bool
  depositAccountKey : Nat
  depositRecord : DepositAccount
  receiverTokenKey : Nat
  depositTokenKey : Nat
  depositTokenBalance : Nat
  tokenProgramKey : Nat
  depositPda : Nat
  now : Int
  deposit_seed : List Nat
deriving DecidableEq

/-- `process_claim` of the earlier program: PDA, receiver identity, closed
flag, then directly the expiry comparison `elapsed < timeout_seconds as i64`
with no timestamp sanity guards; on success it issues the vault transfer
first and persists `is_closed = true` (from a re-deserialized, unchanged
record) afterwards. -/
def process_claim (c : ClaimCtx) : Except Err (List (Effect DepositAccount)) :=
  if c.depositAccountKey ≠ c.depositPda then .error .pdaMismatch
  else if c.depositRecord.receiver ≠ c.receiverKey then .error .notReceiver
  else if c.depositRecord.is_closed then .error .alreadyClosed
  else if subI64 c.now c.depositRecord.last_proof_timestamp <
      u64ToI64 c.depositRecord.timeout_seconds then .error .notExpired
  else
    .ok [ .tokenTransfer c.depositTokenKey c.receiverTokenKey c.depositAccountKey
            c.depositTokenBalance,
          .persist { c.depositRecord with is_closed := true } ]

/-- Outcome of the earlier program's instruction decoding: `panicked` models
a Rust panic from an unguarded out-of-bounds slice, `failed` a returned
`ProgramError`, `done` a successful parse. -/
inductive PRes (α : Type) where
  | panicked
  | failed (e : ProgramError)
  | done (v : α)
deriving DecidableEq

/-- The operations the earlier program parses (its `ProofOfLife` carries no
burn signature on the wire). -/
inductive Parsed where
  | deposit (seed : List Nat) (receiver : Nat) (amount : Nat) (timeout_seconds : Nat)
  | proofOfLife (seed : List Nat)
  | withdraw (seed : List Nat)
  | claim (seed : List Nat)
  | closeAccount (seed : List Nat)
deriving DecidableEq

/-- The seed parse every branch of the earlier `process_instruction` repeats
(`src/dielemma-program/src/lib.rs:172`): it slices `data[0..4]` and
`data[4..4+seed_len]` with NO bounds checks — either slice out of range is a
panic — and checks neither `MAX_DEPOSIT_SEED_LENGTH` nor anything else
beyond UTF-8 validity. -/
def parseSeedUnchecked (data : List Nat) : PRes (List Nat) :=
  if data.length < 4 then .panicked
  else
    let seed_len := leNat (data.take 4)
    if data.length < 4 + seed_len then .panicked
    else
      let seedBytes := (data.drop 4).take seed_len
      if isValidUtf8 seedBytes = false then .failed .invalidInstructionData
      else .done seedBytes

/-- The instruction decoder of the earlier `process_instruction`
(`src/dielemma-program/src/lib.rs:148`). Only the 4-byte discriminant itself
is length-guarded; every payload slice is unguarded. -/
def parseInstruction (instructionData : List Nat) : PRes Parsed :=
  if instructionData.length < 4 then .failed .invalidInstructionData
  else
    let data := instructionData.drop 4
    match leNat (instructionData.take 4) with
    | 0 =>
      match parseSeedUnchecked data with
      | .panicked => .panicked
      | .failed e => .failed e
      | .done seed =>
        if data.length < 4 + seed.length + 32 then .panicked
        else if data.length < 4 + seed.length + 40 then .panicked
        else if data.length < 4 + seed.length + 48 then .panicked
        else
          let rest := data.drop (4 + seed.length)
          .done (.deposit seed (leNat (rest.take 32))
            (leNat ((rest.drop 32).take 8)) (leNat ((rest.drop 40).take 8)))
    | 1 =>
      match parseSeedUnchecked data with
      | .panicked => .panicked
      | .failed e => .failed e
      | .done seed => .done (.proofOfLife seed)
    | 2 =>
      match parseSeedUnchecked data with
      | .panicked => .panicked
      | .failed e => .failed e
      | .done seed => .done (.withdraw seed)
    | 3 =>
      match parseSeedUnchecked data with
      | .panicked => .panicked
      | .failed e => .failed e
      | .done seed => .done (.claim seed)
    | 4 =>
      match parseSeedUnchecked data with
      | .panicked => .panicked
      | .failed e => .failed e
      | .done seed => .done (.closeAccount seed)
    | _ => .failed .invalidInstructionData

end Dlm

namespace Sol

/-- One invocation of a lifecycle operation of the hardened program: the
constructor carries the caller-controlled context; the record (and, for
`Deposit`, the lamport occupancy probe) is supplied by the store state when
the operation runs. -/
inductive Op where
  | deposit (c : DepositCtx)
  | proofOfLife (c : PolCtx)
  | withdraw (c : WithdrawCtx)
  | claim (c : ClaimCtx)
  | closeAccount (c : CloseCtx)

/-- Applies a handler's effect trace to the stored record at one deposit
address: `persist` overwrites the stored record, `drainLamports` (zeroing the
deposit account's lamports) deallocates it, CPI effects on other accounts
leave it unchanged. -/
def applyEffects (s : Option DepositAccount) (effs : List (Effect DepositAccount)) :
    Option DepositAccount :=
  effs.foldl
    (fun st e =>
      match e with
      | .persist r => some r
      | .drainLamports _ _ _ => none
      | _ => st) s

/-- Runs one lifecycle operation of the hardened program against the stored
record at one deposit address. The handler sees the stored record (a missing
record makes `try_from_slice` fail, leaving the store unchanged) and, for
`Deposit`, a lamport balance that is positive exactly when the record exists;
an error result leaves the store unchanged. -/
def step (s : Option DepositAccount) (op : Op) : Option DepositAccount :=
  match op with
  | .deposit c =>
    match process_deposit { c with depositAccountLamports := if s.isSome then 1 else 0 } with
    | .ok effs => applyEffects s effs
    | .error _ => s
  | .proofOfLife c =>
    match s with
    | none => s
    | some r =>
      match process_proof_of_life { c with depositRecord := r } with
      | .ok effs => applyEffects s effs
      | .error _ => s
  | .withdraw c =>
    match s with
    | none => s
    | some r =>
      match process_withdraw { c with depositRecord := r } with
      | .ok effs => applyEffects s effs
      | .error _ => s
  | .claim c =>
    match s with
    | none => s
    | some r =>
      match process_claim { c with depositRecord := r } with
      | .ok effs => applyEffects s effs
      | .error _ => s
  | .closeAccount c =>
    match s with
    | none => s
    | some r =>
      match process_close_account { c with depositRecord := r } with
      | .ok effs => applyEffects s effs
      | .error _ => s

end Sol

namespace Sol

theorem process_withdraw_ok (c : WithdrawCtx)
    (h1 : c.depositorTokenOwner = c.depositorKey)
    (h2 : c.depositAccountKey = c.depositPda)
    (h3 : c.depositRecord.depositor = c.depositorKey)
    (h4 : c.depositRecord.is_closed = false) :
    process_withdraw c =
      .ok [ .persist { c.depositRecord with is_closed := true },
            .tokenTransfer c.depositTokenKey c.depositorTokenKey c.depositAccountKey
              c.depositTokenBalance ] := by
  simp [process_withdraw, h1, h2, h3, h4]
theorem process_withdraw_closed (c : WithdrawCtx)
    (h : c.depositRecord.is_closed = true) :
    ∀ effs, process_withdraw c ≠ .ok effs := by
  intro effs
  simp only [process_withdraw, h]
  repeat' split
  all_goals simp_all

theorem process_proof_of_life_spec (c : PolCtx)
    (h1 : c.depositorIsSigner = true)
    (h2 : c.depositAccountKey = c.depositPda)
    (h3 : c.depositRecord.depositor = c.depositorKey)
    (h4 : c.depositRecord.is_closed = false) :
    process_proof_of_life c =
      if c.depositRecord.last_burn_signature = some c.burn_signature then
        .error .replayedProof
      else
        .ok [ .persist { c.depositRecord with
                           last_proof_timestamp := c.now
                           last_burn_signature := some c.burn_signature } ] := by
  cases hsig : c.depositRecord.last_burn_signature with
  | none => simp [process_proof_of_life, h1, h2, h3, h4, hsig]
  | some lastSig =>
    by_cases he : c.burn_signature = lastSig
    · subst he
      simp [process_proof_of_life, h1, h2, h3, h4, hsig]
    · have he2 : lastSig ≠ c.burn_signature := fun hh => he hh.symm
      simp [process_proof_of_life, h1, h2, h3, h4, hsig, he, he2]

theorem process_proof_of_life_closed (c : PolCtx)
    (h : c.depositRecord.is_closed = true) :
    ∀ effs, process_proof_of_life c ≠ .ok effs := by
  intro effs
  simp only [process_proof_of_life, h]
  repeat' split
  all_goals simp_all

theorem process_claim_closed (c : ClaimCtx)
    (h : c.depositRecord.is_closed = true) :
    ∀ effs, process_claim c ≠ .ok effs := by
  intro effs
  simp only [process_claim, h]
  repeat' split
  all_goals simp_all

theorem process_deposit_pos_lamports (c : DepositCtx)
    (h : 0 < c.depositAccountLamports) :
    ∀ effs, process_deposit c ≠ .ok effs := by
  intro effs
  simp only [process_deposit]
  repeat' split
  all_goals simp_all

theorem process_close_account_ok_form (c : CloseCtx) (effs : List (Effect DepositAccount))
    (h : process_close_account c = .ok effs) :
    effs = [ .drainLamports c.depositAccountKey c.refundKey c.depositLamports ] := by
  unfold process_close_account at h
  repeat' split at h
  all_goals simp_all

end Sol

namespace Sol

theorem process_claim_expiry (c : ClaimCtx)
    (h1 : c.receiverTokenOwner = c.receiverKey)
    (h2 : c.depositAccountKey = c.depositPda)
    (h3 : c.depositRecord.receiver = c.receiverKey)
    (h4 : c.receiverIsSigner = true)
    (h5 : c.depositRecord.is_closed = false)
    (h6 : c.depositRecord.last_proof_timestamp ≤ c.now)
    (h7 : MIN_VALID_TIMESTAMP ≤ c.depositRecord.last_proof_timestamp)
    (h8 : c.now ≤ 2 ^ 63 - 1)
    (h9 : c.depositRecord.timeout_seconds ≤ MAX_TIMEOUT_SECONDS) :
    process_claim c =
      if c.now - c.depositRecord.last_proof_timestamp <
          (c.depositRecord.timeout_seconds : Int) then .error .notExpired
      else
        .ok [ .persist { c.depositRecord with is_closed := true },
              .tokenTransfer c.depositTokenKey c.receiverTokenKey c.depositAccountKey
                c.depositTokenBalance ] := by
  have hsub : subI64 c.now c.depositRecord.last_proof_timestamp
      = c.now - c.depositRecord.last_proof_timestamp := by
    apply subI64_eq_sub
    · unfold MIN_VALID_TIMESTAMP at h7
      omega
    · unfold MIN_VALID_TIMESTAMP at h7
      omega
  have hu : u64ToI64 c.depositRecord.timeout_seconds
      = (c.depositRecord.timeout_seconds : Int) := by
    apply u64ToI64_eq_self
    unfold MAX_TIMEOUT_SECONDS at h9
    omega
  simp [process_claim, h1, h2, h3, h4, h5, hsub, hu, not_lt.mpr h6, not_lt.mpr h7]

end Sol

namespace Dlm

theorem claim_expiry_eq (c : ClaimCtx)
    (h2 : c.depositAccountKey = c.depositPda)
    (h3 : c.depositRecord.receiver = c.receiverKey)
    (h5 : c.depositRecord.is_closed = false)
    (h6 : -(2 ^ 63) ≤ c.now - c.depositRecord.last_proof_timestamp)
    (h7 : c.now - c.depositRecord.last_proof_timestamp < 2 ^ 63)
    (h9 : c.depositRecord.timeout_seconds < 2 ^ 63) :
    process_claim c =
      if c.now - c.depositRecord.last_proof_timestamp <
          (c.depositRecord.timeout_seconds : Int) then .error .notExpired
      else
        .ok [ .tokenTransfer c.depositTokenKey c.receiverTokenKey c.depositAccountKey
                c.depositTokenBalance,
              .persist { c.depositRecord with is_closed := true } ] := by
  have hsub : subI64 c.now c.depositRecord.last_proof_timestamp
      = c.now - c.depositRecord.last_proof_timestamp := subI64_eq_sub _ _ h6 h7
  have hu : u64ToI64 c.depositRecord.timeout_seconds
      = (c.depositRecord.timeout_seconds : Int) := u64ToI64_eq_self _ h9
  simp [process_claim, h2, h3, h5, hsub, hu]

end Dlm

namespace Sol

theorem step_closed (r : DepositAccount) (h : r.is_closed = true) (op : Op) :
    step (some r) op = some r ∨ step (some r) op = none := by
  cases op with
  | deposit c =>
    left
    simp only [step]
    split
    · next effs heq =>
      exact absurd heq (process_deposit_pos_lamports _ (by exact Nat.one_pos) effs)
    · rfl
  | proofOfLife c =>
    left
    simp only [step]
    split
    · next effs heq => exact absurd heq (process_proof_of_life_closed _ h effs)
    · rfl
  | withdraw c =>
    left
    simp only [step]
    split
    · next effs heq => exact absurd heq (process_withdraw_closed _ h effs)
    · rfl
  | claim c =>
    left
    simp only [step]
    split
    · next effs heq => exact absurd heq (process_claim_closed _ h effs)
    · rfl
  | closeAccount c =>
    simp only [step]
    split
    · next effs heq =>
      right
      rw [process_close_account_ok_form _ effs heq]
      rfl
    · left
      rfl

theorem fold_step_closed (ops : List Op) (r : DepositAccount) (h : r.is_closed = true) :
    List.foldl step (some r) ops = some r ∨
      ∃ k, k ≤ ops.length ∧ List.foldl step (some r) (ops.take k) = none := by
  induction ops with
  | nil => left; rfl
  | cons op rest ih =>
    rcases step_closed r h op with hs | hs
    · rcases ih with h1 | ⟨k, hk, hf⟩
      · left
        simpa [List.foldl, hs] using h1
      · right
        refine ⟨k + 1, by simpa using Nat.succ_le_succ hk, ?_⟩
        simpa [List.foldl, hs] using hf
    · right
      exact ⟨1, by simp, by simp [List.foldl, hs]⟩

end Sol

/-- A live (not yet settled) record of the hardened program, used as a
concrete evaluation point. -/
def sampleOpenRecord : Sol.DepositAccount :=
  { depositor := 10
    receiver := 11
    token_mint := Sol.wsolMint
    amount := 1000
    last_proof_timestamp := 1700000000
    timeout_seconds := 86400
    bump := 255
    is_closed := false
    deposit_seed_len := 2
    deposit_seed := 115 :: 49 :: List.replicate 30 0
    last_burn_signature := none }

/-- The same record after settlement. -/
def sampleClosedRecord : Sol.DepositAccount :=
  { sampleOpenRecord with is_closed := true }

/-- A live record of the earlier program, used as a concrete evaluation
point. -/
def dlmOpenRecord : Dlm.DepositAccount :=
  { depositor := 12
    receiver := 13
    token_mint := 106
    amount := 500
    last_proof_timestamp := 1700000000
    timeout_seconds := 60
    bump := 254
    is_closed := false
    deposit_seed_len := 2
    deposit_seed := 115 :: 50 :: List.replicate 30 0 }

/-- A `Withdraw` invocation of the hardened program whose depositor account
did NOT sign the transaction; all other inputs are valid. -/
def unsignedWithdrawCtx : Sol.WithdrawCtx :=
  { depositorKey := 10
    depositorIsSigner := false
    depositAccountKey := 20
    depositRecord := sampleOpenRecord
    depositorTokenKey := 30
    depositorTokenOwner := 10
    depositTokenKey := 40
    depositTokenBalance := 1000
    tokenProgramKey := splTokenId
    depositPda := 20
    deposit_seed := [115, 49] }

/-- A `Withdraw` invocation of the earlier program whose depositor account
did NOT sign the transaction; all other inputs are valid. -/
def dlmUnsignedWithdrawCtx : Dlm.WithdrawCtx :=
  { depositorKey := 12
    depositorIsSigner := false
    depositAccountKey := 21
    depositRecord := dlmOpenRecord
    depositorTokenKey := 31
    depositTokenKey := 41
    depositTokenBalance := 500
    tokenProgramKey := splTokenId
    depositPda := 21
    deposit_seed := [115, 50] }

/-- C1: the claim states that every Withdraw invocation whose depositor has
not signed the transaction (authorization proof absent) is rejected before
any state change or transfer. Neither snapshot's `process_withdraw` contains
a `depositor.is_signer` check, although the instruction's own account list
documents account 0 as `[signer]` and every sibling handler checks it.
Evaluated at an invocation with `is_signer = false` and otherwise valid
inputs, both handlers succeed: they persist the settled record and issue the
vault transfer. -/
theorem withdraw_unsigned_accepted :
    unsignedWithdrawCtx.depositorIsSigner = false ∧
    Sol.process_withdraw unsignedWithdrawCtx =
      .ok [ .persist sampleClosedRecord,
            .tokenTransfer 40 30 20 1000 ] ∧
    dlmUnsignedWithdrawCtx.depositorIsSigner = false ∧
    Dlm.process_withdraw dlmUnsignedWithdrawCtx =
      .ok [ .tokenTransfer 41 31 21 500,
            .persist { dlmOpenRecord with is_closed := true } ] := by
  decide

/-- A valid signed `Withdraw` invocation of the earlier program. -/
def dlmWithdrawCtx : Dlm.WithdrawCtx :=
  { dlmUnsignedWithdrawCtx with depositorIsSigner := true }

/-- C2 counterexample: in the earlier program a successful Withdraw issues
the outgoing vault transfer FIRST, while the persisted record still shows
`is_closed = false`; the closed flag is only persisted afterwards. The
scan `transfersAfterClose` reports `false` on the resulting effect trace. -/
theorem dlm_withdraw_transfer_before_close :
    Dlm.process_withdraw dlmWithdrawCtx =
      .ok [ .tokenTransfer 41 31 21 500,
            .persist { dlmOpenRecord with is_closed := true } ] ∧
    transfersAfterClose (fun r => r.is_closed) dlmWithdrawCtx.depositRecord.is_closed
      [ .tokenTransfer 41 31 21 500,
        .persist { dlmOpenRecord with is_closed := true } ] = false := by
  decide

/-- C2 amended: in the hardened program every successful Withdraw and Claim
persists the record with `is_closed = true` strictly before issuing the vault
transfer (every transfer in the trace happens after a persist of a settled
record); in the earlier program every successful Withdraw and Claim issues
the vault transfer first, while the persisted record still shows
`is_closed = false`, and persists the settled record only afterwards. -/
theorem close_before_transfer_amended :
    (∀ (c : Sol.WithdrawCtx) (effs : List (Effect Sol.DepositAccount)),
        Sol.process_withdraw c = .ok effs →
        transfersAfterClose (fun r => r.is_closed) c.depositRecord.is_closed effs = true) ∧
    (∀ (c : Sol.ClaimCtx) (effs : List (Effect Sol.DepositAccount)),
        Sol.process_claim c = .ok effs →
        transfersAfterClose (fun r => r.is_closed) c.depositRecord.is_closed effs = true) ∧
    (∀ (c : Dlm.WithdrawCtx) (effs : List (Effect Dlm.DepositAccount)),
        Dlm.process_withdraw c = .ok effs →
        transfersAfterClose (fun r => r.is_closed) c.depositRecord.is_closed effs = false) ∧
    (∀ (c : Dlm.ClaimCtx) (effs : List (Effect Dlm.DepositAccount)),
        Dlm.process_claim c = .ok effs →
        transfersAfterClose (fun r => r.is_closed) c.depositRecord.is_closed effs = false) := by
  refine ⟨?_, ?_, ?_, ?_⟩
  · intro c effs h
    unfold Sol.process_withdraw at h
    repeat' split at h
    all_goals try exact Except.noConfusion h
    injection h with h2
    subst h2
    simp_all [transfersAfterClose]
  · intro c effs h
    unfold Sol.process_claim at h
    repeat' split at h
    all_goals try exact Except.noConfusion h
    injection h with h2
    subst h2
    simp_all [transfersAfterClose]
  · intro c effs h
    unfold Dlm.process_withdraw at h
    repeat' split at h
    all_goals try exact Except.noConfusion h
    injection h with h2
    subst h2
    simp_all [transfersAfterClose]
  · intro c effs h
    unfold Dlm.process_claim at h
    repeat' split at h
    all_goals try exact Except.noConfusion h
    injection h with h2
    subst h2
    simp_all [transfersAfterClose]

/-- A valid signed `Withdraw` invocation of the hardened program. -/
def signedWithdrawCtx : Sol.WithdrawCtx :=
  { unsignedWithdrawCtx with depositorIsSigner := true }

/-- A valid `Claim` invocation of the hardened program at the exact expiry
boundary (`now = last_proof_timestamp + timeout_seconds`). -/
def solClaimCtx : Sol.ClaimCtx :=
  { receiverKey := 11
    receiverIsSigner := true
    depositAccountKey := 20
    depositRecord := sampleOpenRecord
    receiverTokenKey := 50
    receiverTokenOwner := 11
    depositTokenKey := 40
    depositTokenBalance := 1000
    tokenProgramKey := splTokenId
    depositPda := 20
    now := 1700086400
    deposit_seed := [115, 49] }

/-- A valid `Claim` invocation of the earlier program one second past the
expiry boundary. -/
def dlmClaimCtx : Dlm.ClaimCtx :=
  { receiverKey := 13
    receiverIsSigner := true
    depositAccountKey := 21
    depositRecord := dlmOpenRecord
    receiverTokenKey := 51
    depositTokenKey := 41
    depositTokenBalance := 500
    tokenProgramKey := splTokenId
    depositPda := 21
    now := 1700000061
    deposit_seed := [115, 50] }

/-- Witness for `close_before_transfer_amended` at the four concrete
invocations above. -/
theorem close_before_transfer_amended_witness :
    transfersAfterClose (fun r => r.is_closed) signedWithdrawCtx.depositRecord.is_closed
      [ .persist sampleClosedRecord, .tokenTransfer 40 30 20 1000 ] = true ∧
    transfersAfterClose (fun r => r.is_closed) solClaimCtx.depositRecord.is_closed
      [ .persist sampleClosedRecord, .tokenTransfer 40 50 20 1000 ] = true ∧
    transfersAfterClose (fun r => r.is_closed) dlmWithdrawCtx.depositRecord.is_closed
      [ .tokenTransfer 41 31 21 500,
        .persist { dlmOpenRecord with is_closed := true } ] = false ∧
    transfersAfterClose (fun r => r.is_closed) dlmClaimCtx.depositRecord.is_closed
      [ .tokenTransfer 41 51 21 500,
        .persist { dlmOpenRecord with is_closed := true } ] = false :=
  ⟨close_before_transfer_amended.1 signedWithdrawCtx _ (by decide),
   close_before_transfer_amended.2.1 solClaimCtx _ (by decide),
   close_before_transfer_amended.2.2.1 dlmWithdrawCtx _ (by decide),
   close_before_transfer_amended.2.2.2 dlmClaimCtx _ (by decide)⟩

/-- C3: for an otherwise-valid RenewLiveness (ProofOfLife) invocation of the
hardened program, supplying a proof token equal to the stored
`last_burn_signature` always fails with the replay error; and starting from a
fresh record (`last_burn_signature = none`), the first renewal with ANY token
— in particular a default all-zero token — succeeds and stores it, after
which re-supplying that same token fails with the replay error. -/
theorem renew_replay_rejected (c : Sol.PolCtx)
    (h1 : c.depositorIsSigner = true)
    (h2 : c.depositAccountKey = c.depositPda)
    (h3 : c.depositRecord.depositor = c.depositorKey)
    (h4 : c.depositRecord.is_closed = false) :
    (∀ t, c.depositRecord.last_burn_signature = some t → c.burn_signature = t →
        Sol.process_proof_of_life c = .error .replayedProof) ∧
    (c.depositRecord.last_burn_signature = none →
        Sol.process_proof_of_life c =
          .ok [ .persist { c.depositRecord with
                             last_proof_timestamp := c.now
                             last_burn_signature := some c.burn_signature } ] ∧
        Sol.process_proof_of_life
            { c with depositRecord :=
                { c.depositRecord with
                    last_proof_timestamp := c.now
                    last_burn_signature := some c.burn_signature } } =
          .error .replayedProof) := by
  constructor
  · intro t hst hbt
    rw [Sol.process_proof_of_life_spec c h1 h2 h3 h4, if_pos (by rw [hst, hbt])]
  · intro hn
    constructor
    · rw [Sol.process_proof_of_life_spec c h1 h2 h3 h4, if_neg (by simp [hn])]
    · rw [Sol.process_proof_of_life_spec
          { c with depositRecord :=
              { c.depositRecord with
                  last_proof_timestamp := c.now
                  last_burn_signature := some c.burn_signature } } h1 h2 h3 h4,
        if_pos rfl]

/-- A valid `ProofOfLife` invocation of the hardened program on a record
with no stored burn signature, supplying the default all-zero token. -/
def polCtx : Sol.PolCtx :=
  { depositorKey := 10
    depositorIsSigner := true
    depositAccountKey := 20
    depositRecord := sampleOpenRecord
    depositPda := 20
    now := 1700050000
    deposit_seed := [115, 49]
    burn_signature := List.replicate 64 0 }

/-- A valid `ProofOfLife` invocation whose supplied token equals the stored
`last_burn_signature`. -/
def polReplayCtx : Sol.PolCtx :=
  { polCtx with
      depositRecord :=
        { sampleOpenRecord with last_burn_signature := some (List.replicate 64 7) }
      burn_signature := List.replicate 64 7 }

/-- Witness for `renew_replay_rejected`: a concrete replay rejection, and the
concrete first-renewal-with-zero-token chain. -/
theorem renew_replay_rejected_witness :
    Sol.process_proof_of_life polReplayCtx = .error .replayedProof ∧
    (Sol.process_proof_of_life polCtx =
        .ok [ .persist { sampleOpenRecord with
                           last_proof_timestamp := 1700050000
                           last_burn_signature := some (List.replicate 64 0) } ] ∧
      Sol.process_proof_of_life
          { polCtx with depositRecord :=
              { sampleOpenRecord with
                  last_proof_timestamp := 1700050000
                  last_burn_signature := some (List.replicate 64 0) } } =
        .error .replayedProof) :=
  ⟨(renew_replay_rejected polReplayCtx rfl rfl rfl rfl).1 _ rfl rfl,
   (renew_replay_rejected polCtx rfl rfl rfl rfl).2 rfl⟩

/-- C9 (implicit): the replay guard of the hardened RenewLiveness remembers
only the single most recently accepted token: for an otherwise-valid
invocation the outcome is decided purely by an inequality against the stored
`last_burn_signature` (no other validation of the token's content), a token
distinct from the stored one is accepted and becomes the new only-remembered
token, and alternating two distinct tokens is accepted indefinitely — the
third call reuses byte-identical `t1`, accepted earlier in the record's
history, and still succeeds. -/
theorem replay_guard_single_token (c : Sol.PolCtx)
    (h1 : c.depositorIsSigner = true)
    (h2 : c.depositAccountKey = c.depositPda)
    (h3 : c.depositRecord.depositor = c.depositorKey)
    (h4 : c.depositRecord.is_closed = false) :
    (Sol.process_proof_of_life c =
      if c.depositRecord.last_burn_signature = some c.burn_signature then
        .error .replayedProof
      else
        .ok [ .persist { c.depositRecord with
                           last_proof_timestamp := c.now
                           last_burn_signature := some c.burn_signature } ]) ∧
    (∀ t1 t2 : List Nat, t1 ≠ t2 → c.depositRecord.last_burn_signature ≠ some t1 →
      Sol.process_proof_of_life { c with burn_signature := t1 } =
        .ok [ .persist { c.depositRecord with
                           last_proof_timestamp := c.now
                           last_burn_signature := some t1 } ] ∧
      Sol.process_proof_of_life
          { c with
              depositRecord := { c.depositRecord with
                                   last_proof_timestamp := c.now
                                   last_burn_signature := some t1 }
              burn_signature := t2 } =
        .ok [ .persist { c.depositRecord with
                           last_proof_timestamp := c.now
                           last_burn_signature := some t2 } ] ∧
      Sol.process_proof_of_life
          { c with
              depositRecord := { c.depositRecord with
                                   last_proof_timestamp := c.now
                                   last_burn_signature := some t2 }
              burn_signature := t1 } =
        .ok [ .persist { c.depositRecord with
                           last_proof_timestamp := c.now
                           last_burn_signature := some t1 } ]) := by
  refine ⟨Sol.process_proof_of_life_spec c h1 h2 h3 h4, ?_⟩
  intro t1 t2 hne hfirst
  refine ⟨?_, ?_, ?_⟩
  · rw [Sol.process_proof_of_life_spec { c with burn_signature := t1 } h1 h2 h3 h4,
      if_neg hfirst]
  · rw [Sol.process_proof_of_life_spec
        { c with
            depositRecord := { c.depositRecord with
                                 last_proof_timestamp := c.now
                                 last_burn_signature := some t1 }
            burn_signature := t2 } h1 h2 h3 h4,
      if_neg (by simp [hne])]
  · rw [Sol.process_proof_of_life_spec
        { c with
            depositRecord := { c.depositRecord with
                                 last_proof_timestamp := c.now
                                 last_burn_signature := some t2 }
            burn_signature := t1 } h1 h2 h3 h4,
      if_neg (by simp [Ne.symm hne])]

/-- Witness for `replay_guard_single_token`: the alternation chain at a
concrete record with two concrete distinct tokens. -/
theorem replay_guard_single_token_witness :
    Sol.process_proof_of_life { polCtx with burn_signature := List.replicate 64 1 } =
      .ok [ .persist { sampleOpenRecord with
                         last_proof_timestamp := 1700050000
                         last_burn_signature := some (List.replicate 64 1) } ] ∧
    Sol.process_proof_of_life
        { polCtx with
            depositRecord := { sampleOpenRecord with
                                 last_proof_timestamp := 1700050000
                                 last_burn_signature := some (List.replicate 64 1) }
            burn_signature := List.replicate 64 2 } =
      .ok [ .persist { sampleOpenRecord with
                         last_proof_timestamp := 1700050000
                         last_burn_signature := some (List.replicate 64 2) } ] ∧
    Sol.process_proof_of_life
        { polCtx with
            depositRecord := { sampleOpenRecord with
                                 last_proof_timestamp := 1700050000
                                 last_burn_signature := some (List.replicate 64 2) }
            burn_signature := List.replicate 64 1 } =
      .ok [ .persist { sampleOpenRecord with
                         last_proof_timestamp := 1700050000
                         last_burn_signature := some (List.replicate 64 1) } ] :=
  (replay_guard_single_token polCtx rfl rfl rfl rfl).2
    (List.replicate 64 1) (List.replicate 64 2) (by decide) (by decide)

/-- C4: for a non-closed record within the data model's enforced timeout
bounds and an authenticated receiver, Claim fails with the not-expired
(temporal violation) error exactly when `now - last_liveness_at` is strictly
below `timeout_duration`, and the expiry check passes — the claim succeeds —
exactly from `now - last_liveness_at = timeout_duration` upwards. This holds
in both snapshots (in the hardened one under its timestamp sanity guards;
timestamps are within the `i64` range of the source's clock type). -/
theorem claim_expiry_boundary :
    (∀ c : Sol.ClaimCtx,
        c.receiverTokenOwner = c.receiverKey →
        c.depositAccountKey = c.depositPda →
        c.depositRecord.receiver = c.receiverKey →
        c.receiverIsSigner = true →
        c.depositRecord.is_closed = false →
        c.depositRecord.last_proof_timestamp ≤ c.now →
        Sol.MIN_VALID_TIMESTAMP ≤ c.depositRecord.last_proof_timestamp →
        c.now ≤ 2 ^ 63 - 1 →
        c.depositRecord.timeout_seconds ≤ Sol.MAX_TIMEOUT_SECONDS →
        ((c.now - c.depositRecord.last_proof_timestamp <
            (c.depositRecord.timeout_seconds : Int) →
          Sol.process_claim c = .error .notExpired) ∧
         ((c.depositRecord.timeout_seconds : Int) ≤
            c.now - c.depositRecord.last_proof_timestamp →
          Sol.process_claim c =
            .ok [ .persist { c.depositRecord with is_closed := true },
                  .tokenTransfer c.depositTokenKey c.receiverTokenKey
                    c.depositAccountKey c.depositTokenBalance ]))) ∧
    (∀ c : Dlm.ClaimCtx,
        c.depositAccountKey = c.depositPda →
        c.depositRecord.receiver = c.receiverKey →
        c.depositRecord.is_closed = false →
        c.depositRecord.last_proof_timestamp ≤ c.now →
        c.now - c.depositRecord.last_proof_timestamp < 2 ^ 63 →
        c.depositRecord.timeout_seconds ≤ Sol.MAX_TIMEOUT_SECONDS →
        ((c.now - c.depositRecord.last_proof_timestamp <
            (c.depositRecord.timeout_seconds : Int) →
          Dlm.process_claim c = .error .notExpired) ∧
         ((c.depositRecord.timeout_seconds : Int) ≤
            c.now - c.depositRecord.last_proof_timestamp →
          Dlm.process_claim c =
            .ok [ .tokenTransfer c.depositTokenKey c.receiverTokenKey
                    c.depositAccountKey c.depositTokenBalance,
                  .persist { c.depositRecord with is_closed := true } ]))) := by
  constructor
  · intro c h1 h2 h3 h4 h5 h6 h7 h8 h9
    rw [Sol.process_claim_expiry c h1 h2 h3 h4 h5 h6 h7 h8 h9]
    constructor
    · intro hlt
      rw [if_pos hlt]
    · intro hge
      rw [if_neg (not_lt.mpr hge)]
  · intro c h2 h3 h5 h6 h7 h9
    have h9lt : c.depositRecord.timeout_seconds < 2 ^ 63 := by
      unfold Sol.MAX_TIMEOUT_SECONDS at h9
      omega
    rw [Dlm.claim_expiry_eq c h2 h3 h5 (by omega) h7 h9lt]
    constructor
    · intro hlt
      rw [if_pos hlt]
    · intro hge
      rw [if_neg (not_lt.mpr hge)]

/-- Witness for `claim_expiry_boundary`: both snapshots evaluated one second
before the boundary (rejected not-expired) and at or past the boundary
(accepted), on concrete records. -/
theorem claim_expiry_boundary_witness :
    Sol.process_claim { solClaimCtx with now := 1700086399 } = .error .notExpired ∧
    Sol.process_claim solClaimCtx =
      .ok [ .persist sampleClosedRecord, .tokenTransfer 40 50 20 1000 ] ∧
    Dlm.process_claim { dlmClaimCtx with now := 1700000059 } = .error .notExpired ∧
    Dlm.process_claim dlmClaimCtx =
      .ok [ .tokenTransfer 41 51 21 500,
            .persist { dlmOpenRecord with is_closed := true } ] :=
  ⟨(claim_expiry_boundary.1 { solClaimCtx with now := 1700086399 }
      rfl rfl rfl rfl rfl (by decide) (by decide) (by decide) (by decide)).1 (by decide),
   (claim_expiry_boundary.1 solClaimCtx
      rfl rfl rfl rfl rfl (by decide) (by decide) (by decide) (by decide)).2 (by decide),
   (claim_expiry_boundary.2 { dlmClaimCtx with now := 1700000059 }
      rfl rfl rfl (by decide) (by decide) (by decide)).1 (by decide),
   (claim_expiry_boundary.2 dlmClaimCtx
      rfl rfl rfl (by decide) (by decide) (by decide)).2 (by decide)⟩

/-- C5 amended: the hardened program's Claim applies both timestamp sanity
guards before the elapsed-time arithmetic — a `last_liveness_at` in the
future of the clock is a hard validation error and one below the configured
floor `MIN_VALID_TIMESTAMP` is a hard validation error, in both cases
regardless of the timeout comparison; the earlier program's Claim applies
neither guard — a future timestamp is rejected only through the not-expired
comparison, and (per the counterexample) a pre-floor timestamp does not
prevent a successful claim. -/
theorem claim_sanity_guards_amended :
    (∀ c : Sol.ClaimCtx,
        c.receiverTokenOwner = c.receiverKey →
        c.depositAccountKey = c.depositPda →
        c.depositRecord.receiver = c.receiverKey →
        c.receiverIsSigner = true →
        c.depositRecord.is_closed = false →
        ((c.now < c.depositRecord.last_proof_timestamp →
            Sol.process_claim c = .error .futureTimestamp) ∧
         (c.depositRecord.last_proof_timestamp ≤ c.now →
          c.depositRecord.last_proof_timestamp < Sol.MIN_VALID_TIMESTAMP →
            Sol.process_claim c = .error .timestampTooOld))) ∧
    (∀ c : Dlm.ClaimCtx,
        c.depositAccountKey = c.depositPda →
        c.depositRecord.receiver = c.receiverKey →
        c.depositRecord.is_closed = false →
        c.now < c.depositRecord.last_proof_timestamp →
        -(2 ^ 63) ≤ c.now - c.depositRecord.last_proof_timestamp →
        1 ≤ c.depositRecord.timeout_seconds →
        c.depositRecord.timeout_seconds < 2 ^ 63 →
        Dlm.process_claim c = .error .notExpired) := by
  constructor
  · intro c h1 h2 h3 h4 h5
    constructor
    · intro hfut
      simp [Sol.process_claim, h1, h2, h3, h4, h5, hfut]
    · intro hle hold
      simp [Sol.process_claim, h1, h2, h3, h4, h5, not_lt.mpr hle, hold]
  · intro c h2 h3 h5 hfut h6 h7 h8
    rw [Dlm.claim_expiry_eq c h2 h3 h5 h6 (by omega) h8, if_pos (by omega)]

/-- A `Claim` invocation of the earlier program on a record whose
`last_proof_timestamp` (0) lies far below the hardened program's validity
floor. -/
def dlmStaleClaimCtx : Dlm.ClaimCtx :=
  { dlmClaimCtx with
      depositRecord := { dlmOpenRecord with last_proof_timestamp := 0 } }

/-- C5 counterexample: the claim states both timestamp sanity guards are
applied before the elapsed-time computation, rejecting a pre-floor
`last_liveness_at` as a hard error regardless of the timeout comparison. The
earlier program's Claim has no such guard: with `last_proof_timestamp = 0`,
far below the floor `1598000000`, the claim is not rejected — it succeeds
and transfers the vault balance. -/
theorem dlm_claim_accepts_prefloor_timestamp :
    dlmStaleClaimCtx.depositRecord.last_proof_timestamp < Sol.MIN_VALID_TIMESTAMP ∧
    Dlm.process_claim dlmStaleClaimCtx =
      .ok [ .tokenTransfer 41 51 21 500,
            .persist { dlmOpenRecord with
                         last_proof_timestamp := 0
                         is_closed := true } ] := by
  decide

/-- Witness for `claim_sanity_guards_amended`: concrete future-timestamp and
pre-floor rejections in the hardened program, and the concrete
rejected-as-not-expired future timestamp in the earlier program. -/
theorem claim_sanity_guards_amended_witness :
    Sol.process_claim { solClaimCtx with now := 1600000000 } =
      .error .futureTimestamp ∧
    Sol.process_claim
        { solClaimCtx with
            depositRecord := { sampleOpenRecord with last_proof_timestamp := 100 } } =
      .error .timestampTooOld ∧
    Dlm.process_claim { dlmClaimCtx with now := 1600000000 } = .error .notExpired :=
  ⟨(claim_sanity_guards_amended.1 { solClaimCtx with now := 1600000000 }
      rfl rfl rfl rfl rfl).1 (by decide),
   (claim_sanity_guards_amended.1
      { solClaimCtx with
          depositRecord := { sampleOpenRecord with last_proof_timestamp := 100 } }
      rfl rfl rfl rfl rfl).2 (by decide) (by decide),
   claim_sanity_guards_amended.2 { dlmClaimCtx with now := 1600000000 }
      rfl rfl rfl (by decide) (by decide) (by decide) (by decide)⟩

/-- C6: on the hardened program's lifecycle state machine, the closed flag is
monotonic. Stepwise: from a settled (closed) record, every operation either
leaves the stored record exactly unchanged (all mutating handlers reject a
closed record) or deallocates it (a successful Teardown); none can store a
record with the flag cleared. Over sequences: from a settled record, any
sequence of operations either leaves the record unchanged throughout or
reaches the point where the record is torn down (after which that record no
longer exists) — no reachable state holds the same record reopened. -/
theorem closed_flag_monotonic :
    (∀ (s : Option Sol.DepositAccount) (r : Sol.DepositAccount) (op : Sol.Op),
        s = some r → r.is_closed = true →
        Sol.step s op = some r ∨ Sol.step s op = none) ∧
    (∀ (ops : List Sol.Op) (r : Sol.DepositAccount), r.is_closed = true →
        List.foldl Sol.step (some r) ops = some r ∨
          ∃ k, k ≤ ops.length ∧ List.foldl Sol.step (some r) (ops.take k) = none) := by
  constructor
  · intro s r op hs h
    subst hs
    exact Sol.step_closed r h op
  · intro ops r h
    exact Sol.fold_step_closed ops r h

/-- Witness for `closed_flag_monotonic`: a concrete settled record stepped by
a concrete Withdraw, and folded over a concrete Withdraw-then-Claim
sequence. -/
theorem closed_flag_monotonic_witness :
    sampleClosedRecord.is_closed = true ∧
    (Sol.step (some sampleClosedRecord) (.withdraw signedWithdrawCtx) =
        some sampleClosedRecord ∨
      Sol.step (some sampleClosedRecord) (.withdraw signedWithdrawCtx) = none) ∧
    (List.foldl Sol.step (some sampleClosedRecord)
        [.withdraw signedWithdrawCtx, .claim solClaimCtx] = some sampleClosedRecord ∨
      ∃ k, k ≤ 2 ∧
        List.foldl Sol.step (some sampleClosedRecord)
          (List.take k [.withdraw signedWithdrawCtx, .claim solClaimCtx]) = none) :=
  ⟨rfl,
   closed_flag_monotonic.1 (some sampleClosedRecord) sampleClosedRecord
     (.withdraw signedWithdrawCtx) rfl rfl,
   closed_flag_monotonic.2 [.withdraw signedWithdrawCtx, .claim solClaimCtx]
     sampleClosedRecord rfl⟩

/-- C10 (implicit): a successful Withdraw or Claim of the hardened program
transfers exactly the vault token account's balance as read at execution
time — never the record's `amount` field, which is not consulted for the
transfer quantity and is persisted unchanged (only `is_closed` flips). In
particular the balance `c.depositTokenBalance` is universally quantified and
unrelated to `c.depositRecord.amount`, so a vault balance differing from
`amount` (including zero) still succeeds and moves the live balance. -/
theorem settlement_transfers_vault_balance :
    (∀ c : Sol.WithdrawCtx,
        c.depositorTokenOwner = c.depositorKey →
        c.depositAccountKey = c.depositPda →
        c.depositRecord.depositor = c.depositorKey →
        c.depositRecord.is_closed = false →
        Sol.process_withdraw c =
          .ok [ .persist { c.depositRecord with is_closed := true },
                .tokenTransfer c.depositTokenKey c.depositorTokenKey
                  c.depositAccountKey c.depositTokenBalance ]) ∧
    (∀ c : Sol.ClaimCtx,
        c.receiverTokenOwner = c.receiverKey →
        c.depositAccountKey = c.depositPda →
        c.depositRecord.receiver = c.receiverKey →
        c.receiverIsSigner = true →
        c.depositRecord.is_closed = false →
        c.depositRecord.last_proof_timestamp ≤ c.now →
        Sol.MIN_VALID_TIMESTAMP ≤ c.depositRecord.last_proof_timestamp →
        c.now ≤ 2 ^ 63 - 1 →
        c.depositRecord.timeout_seconds ≤ Sol.MAX_TIMEOUT_SECONDS →
        (c.depositRecord.timeout_seconds : Int) ≤
          c.now - c.depositRecord.last_proof_timestamp →
        Sol.process_claim c =
          .ok [ .persist { c.depositRecord with is_closed := true },
                .tokenTransfer c.depositTokenKey c.receiverTokenKey
                  c.depositAccountKey c.depositTokenBalance ]) := by
  constructor
  · intro c h1 h2 h3 h4
    exact Sol.process_withdraw_ok c h1 h2 h3 h4
  · intro c h1 h2 h3 h4 h5 h6 h7 h8 h9 hge
    rw [Sol.process_claim_expiry c h1 h2 h3 h4 h5 h6 h7 h8 h9,
      if_neg (not_lt.mpr hge)]

/-- Witness for `settlement_transfers_vault_balance`: the record's `amount`
is 1000, yet a Withdraw at vault balance 0 succeeds transferring 0, and a
Claim at vault balance 123 succeeds transferring 123; both persist the
record with `amount` still 1000. -/
theorem settlement_transfers_vault_balance_witness :
    sampleOpenRecord.amount = 1000 ∧
    sampleClosedRecord.amount = 1000 ∧
    Sol.process_withdraw { signedWithdrawCtx with depositTokenBalance := 0 } =
      .ok [ .persist sampleClosedRecord, .tokenTransfer 40 30 20 0 ] ∧
    Sol.process_claim { solClaimCtx with depositTokenBalance := 123 } =
      .ok [ .persist sampleClosedRecord, .tokenTransfer 40 50 20 123 ] :=
  ⟨rfl, rfl,
   settlement_transfers_vault_balance.1
     { signedWithdrawCtx with depositTokenBalance := 0 } rfl rfl rfl rfl,
   settlement_transfers_vault_balance.2
     { solClaimCtx with depositTokenBalance := 123 } rfl rfl rfl rfl rfl
     (by decide) (by decide) (by decide) (by decide) (by decide)⟩

theorem parseSeedChecked_violation (data : List Nat) (rerr : ProgramError)
    (h : data.length < 4 ∨ Sol.MAX_DEPOSIT_SEED_LENGTH < leNat (data.take 4) ∨
         data.length < 4 + leNat (data.take 4)) :
    Sol.parseSeedChecked data rerr = .error .invalidInstructionData := by
  simp only [Sol.parseSeedChecked]
  by_cases h1 : data.length < 4
  · rw [if_pos h1]
  · have h2 : Sol.MAX_DEPOSIT_SEED_LENGTH < leNat (data.take 4) ∨
        data.length < 4 + leNat (data.take 4) := by
      rcases h with h | h | h
      · exact absurd h h1
      · exact Or.inl h
      · exact Or.inr h
    rw [if_neg h1, if_pos h2]

/-- Any instruction whose declared seed length exceeds
`MAX_DEPOSIT_SEED_LENGTH` or the remaining buffer (including a buffer too
short for the length field itself) is rejected by the hardened decoder with
`InvalidInstructionData`, before any handler runs. -/
theorem parseInstruction_violation (bytes : List Nat)
    (h : Sol.MAX_DEPOSIT_SEED_LENGTH < leNat ((bytes.drop 4).take 4) ∨
         bytes.length < 8 + leNat ((bytes.drop 4).take 4)) :
    Sol.parseInstruction bytes = .error .invalidInstructionData := by
  by_cases h0 : bytes.length < 4
  · simp only [Sol.parseInstruction]
    rw [if_pos h0]
  · have hlen : (bytes.drop 4).length = bytes.length - 4 := List.length_drop 4 bytes
    have hv : (bytes.drop 4).length < 4 ∨
        Sol.MAX_DEPOSIT_SEED_LENGTH < leNat ((bytes.drop 4).take 4) ∨
        (bytes.drop 4).length < 4 + leNat ((bytes.drop 4).take 4) := by
      rcases h with h | h
      · exact Or.inr (Or.inl h)
      · right
        right
        omega
    have hseed1 := parseSeedChecked_violation (bytes.drop 4) .invalidInstructionData hv
    have hseed2 := parseSeedChecked_violation (bytes.drop 4) .invalidAccountData hv
    simp only [Sol.parseInstruction]
    rw [if_neg h0]
    split
    · simp [hseed1]
    · simp [hseed2]
    · simp [hseed1]
    · simp [hseed1]
    · simp [hseed1]
    · rfl

theorem parseSeedUnchecked_panic (data : List Nat)
    (h : data.length < 4 + leNat (data.take 4)) :
    Dlm.parseSeedUnchecked data = .panicked := by
  simp only [Dlm.parseSeedUnchecked]
  by_cases h1 : data.length < 4
  · rw [if_pos h1]
  · rw [if_neg h1, if_pos h]

/-- In the earlier decoder, any instruction with a known discriminant whose
declared seed length exceeds the remaining buffer (including a buffer too
short for the length field itself) PANICS on an out-of-bounds slice instead
of returning an error. -/
theorem dlmParseInstruction_panic (bytes : List Nat)
    (h0 : 4 ≤ bytes.length) (hd : leNat (bytes.take 4) ≤ 4)
    (h : bytes.length < 8 + leNat ((bytes.drop 4).take 4)) :
    Dlm.parseInstruction bytes = .panicked := by
  have hlen : (bytes.drop 4).length = bytes.length - 4 := List.length_drop 4 bytes
  have hv : (bytes.drop 4).length < 4 + leNat ((bytes.drop 4).take 4) := by omega
  have hseed := parseSeedUnchecked_panic (bytes.drop 4) hv
  simp only [Dlm.parseInstruction]
  rw [if_neg (Nat.not_lt.mpr h0)]
  split
  · simp [hseed]
  · simp [hseed]
  · simp [hseed]
  · simp [hseed]
  · simp [hseed]
  · rename_i hn0 hn1 hn2 hn3 hn4
    simp only [imp_false] at hn0 hn1 hn2 hn3 hn4
    omega

/-- C7 counterexample: the claim states every length-prefixed field is
validated against the remaining buffer and against `MAX_SEED_LENGTH` (32),
any violation being rejected as a malformed-input error and never a panic.
The earlier program's decoder does neither: a Withdraw whose declared seed
length (5) exceeds the remaining buffer (0 bytes) panics on an out-of-bounds
slice instead of returning an error, and a declared seed length of 33 > 32
that fits the buffer is accepted and passed on to the handler. -/
theorem dlm_parse_unchecked_lengths :
    Dlm.parseInstruction [2, 0, 0, 0, 5, 0, 0, 0] = .panicked ∧
    Dlm.parseInstruction
        (2 :: 0 :: 0 :: 0 :: 33 :: 0 :: 0 :: 0 :: List.replicate 33 97) =
      .done (.withdraw (List.replicate 33 97)) ∧
    Dlm.MAX_DEPOSIT_SEED_LENGTH < (List.replicate 33 97).length := by
  decide

/-- C7 amended: the hardened program's decoder validates, for every branch,
that the declared seed length is at most 32 and fits the remaining buffer,
rejecting any violation (including a buffer too short for the length field)
with `InvalidInstructionData` before any handler runs; the earlier program's
decoder performs no such validation — for every known discriminant, a
declared length exceeding the remaining buffer causes an out-of-bounds slice
panic rather than an error result (and lengths above 32 that fit the buffer
are not rejected at all, per the counterexample). -/
theorem length_validation_amended :
    (∀ bytes : List Nat,
        Sol.MAX_DEPOSIT_SEED_LENGTH < leNat ((bytes.drop 4).take 4) ∨
        bytes.length < 8 + leNat ((bytes.drop 4).take 4) →
        Sol.parseInstruction bytes = .error .invalidInstructionData) ∧
    (∀ bytes : List Nat, 4 ≤ bytes.length → leNat (bytes.take 4) ≤ 4 →
        bytes.length < 8 + leNat ((bytes.drop 4).take 4) →
        Dlm.parseInstruction bytes = .panicked) :=
  ⟨parseInstruction_violation, dlmParseInstruction_panic⟩

/-- Witness for `length_validation_amended`: the hardened decoder rejects a
Deposit with declared seed length 33 (over the 32 cap) and a Claim whose
declared length 5 overruns an empty payload; the earlier decoder panics on
the same overrun. -/
theorem length_validation_amended_witness :
    Sol.parseInstruction
        (0 :: 0 :: 0 :: 0 :: 33 :: 0 :: 0 :: 0 :: List.replicate 100 97) =
      .error .invalidInstructionData ∧
    Sol.parseInstruction [3, 0, 0, 0, 5, 0, 0, 0] = .error .invalidInstructionData ∧
    Dlm.parseInstruction [3, 0, 0, 0, 5, 0, 0, 0] = .panicked :=
  ⟨length_validation_amended.1 _ (by decide),
   length_validation_amended.1 _ (by decide),
   length_validation_amended.2 _ (by decide) (by decide) (by decide)⟩

/-- An `Open` (Deposit) invocation of the earlier program with a zero amount
and an out-of-bounds timeout; every environment input is valid. -/
def dlmZeroDepositCtx : Dlm.DepositCtx :=
  { programId := 99
    depositorKey := 10
    depositorIsSigner := true
    depositAccountKey := 20
    depositAccountLamports := 0
    depositorTokenKey := 30
    depositTokenKey := 40
    tokenMintKey := 106
    tokenProgramKey := splTokenId
    systemProgramKey := systemProgramId
    rentRecordLamports := 1000
    rentTokenLamports := 2000
    depositPda := 20
    bump := 255
    tokenPda := 40
    tokenBump := 254
    now := 1700000000
    deposit_seed := [115, 51]
    receiver := 11
    amount := 0
    timeout_seconds := 5 }

/-- C8 counterexample: the claim states Open rejects a zero amount (and an
out-of-bounds timeout) before committing any value to custody. The earlier
program's `process_deposit` has no amount, timeout, ownership, or mint check:
with `amount = 0` and `timeout_seconds = 5` (below the 60-second minimum) it
succeeds, creates the accounts, transfers 0 tokens, and persists the
record. -/
theorem dlm_deposit_accepts_zero_amount :
    dlmZeroDepositCtx.amount = 0 ∧
    dlmZeroDepositCtx.timeout_seconds < 60 ∧
    Dlm.process_deposit dlmZeroDepositCtx =
      .ok [ .createAccount 10 20 99 1000 158,
            .createAccount 10 40 splTokenId 2000 165,
            .initTokenAccount 40 106 20,
            .tokenTransfer 30 40 10 0,
            .persist
              { depositor := 10
                receiver := 11
                token_mint := 106
                amount := 0
                last_proof_timestamp := 1700000000
                timeout_seconds := 5
                bump := 255
                is_closed := false
                deposit_seed_len := 2
                deposit_seed := 115 :: 51 :: List.replicate 30 0 } ] := by
  decide

/-- C8 amended: in the hardened program, `process_deposit` rejects — before
any CPI is issued (an error result carries no effects) — a signed invocation
with: zero amount (`InvalidInstructionData`), timeout outside
`[60, 315360000]` (`InvalidInstructionData`), a funding token account not
owned by the depositor (`InvalidAccountData`), a funding account whose mint
is not WSOL (`InvalidAccountData`), and an occupied record address
(`AccountAlreadyInitialized`); an over-long seed is rejected by the decoder
(`InvalidInstructionData`) before the handler runs. Some of these share a
generic `ProgramError` code rather than each having a distinct kind, and the
earlier program performs none of the amount/timeout/funding checks (per the
counterexample). -/
theorem open_rejections_amended :
    (∀ c : Sol.DepositCtx,
        c.depositorIsSigner = true → c.systemProgramKey = systemProgramId →
        c.rentSysvarKey = rentSysvarId → c.tokenProgramKey = splTokenId →
        c.amount = 0 → Sol.process_deposit c = .error .zeroAmount) ∧
    (∀ c : Sol.DepositCtx,
        c.depositorIsSigner = true → c.systemProgramKey = systemProgramId →
        c.rentSysvarKey = rentSysvarId → c.tokenProgramKey = splTokenId →
        c.amount ≠ 0 →
        (c.timeout_seconds < Sol.MIN_TIMEOUT_SECONDS ∨
          Sol.MAX_TIMEOUT_SECONDS < c.timeout_seconds) →
        Sol.process_deposit c = .error .invalidTimeout) ∧
    (∀ c : Sol.DepositCtx,
        c.depositorIsSigner = true → c.systemProgramKey = systemProgramId →
        c.rentSysvarKey = rentSysvarId → c.tokenProgramKey = splTokenId →
        c.amount ≠ 0 →
        Sol.MIN_TIMEOUT_SECONDS ≤ c.timeout_seconds →
        c.timeout_seconds ≤ Sol.MAX_TIMEOUT_SECONDS →
        c.depositorTokenOwner ≠ c.depositorKey →
        Sol.process_deposit c = .error .fundingOwnerMismatch) ∧
    (∀ c : Sol.DepositCtx,
        c.depositorIsSigner = true → c.systemProgramKey = systemProgramId →
        c.rentSysvarKey = rentSysvarId → c.tokenProgramKey = splTokenId →
        c.amount ≠ 0 →
        Sol.MIN_TIMEOUT_SECONDS ≤ c.timeout_seconds →
        c.timeout_seconds ≤ Sol.MAX_TIMEOUT_SECONDS →
        c.depositorTokenOwner = c.depositorKey →
        c.depositorTokenMint ≠ Sol.wsolMint →
        Sol.process_deposit c = .error .fundingMintMismatch) ∧
    (∀ c : Sol.DepositCtx,
        c.depositorIsSigner = true → c.systemProgramKey = systemProgramId →
        c.rentSysvarKey = rentSysvarId → c.tokenProgramKey = splTokenId →
        c.amount ≠ 0 →
        Sol.MIN_TIMEOUT_SECONDS ≤ c.timeout_seconds →
        c.timeout_seconds ≤ Sol.MAX_TIMEOUT_SECONDS →
        c.depositorTokenOwner = c.depositorKey →
        c.depositorTokenMint = Sol.wsolMint →
        c.depositAccountKey = c.depositPda →
        0 < c.depositAccountLamports →
        Sol.process_deposit c = .error .alreadyInitialized) ∧
    (∀ bytes : List Nat,
        Sol.MAX_DEPOSIT_SEED_LENGTH < leNat ((bytes.drop 4).take 4) →
        Sol.parseInstruction bytes = .error .invalidInstructionData) := by
  refine ⟨?_, ?_, ?_, ?_, ?_, ?_⟩
  · intro c hb1 hb2 hb3 hb4 hz
    simp only [Sol.process_deposit]
    rw [if_neg (by simp [hb1]), if_neg (by simp [hb2]), if_neg (by simp [hb3]),
      if_neg (by simp [hb4]), if_pos hz]
  · intro c hb1 hb2 hb3 hb4 hamt hin
    simp only [Sol.process_deposit]
    rw [if_neg (by simp [hb1]), if_neg (by simp [hb2]), if_neg (by simp [hb3]),
      if_neg (by simp [hb4]), if_neg hamt, if_pos hin]
  · intro c hb1 hb2 hb3 hb4 hamt hmin hmax hown
    simp only [Sol.process_deposit]
    rw [if_neg (by simp [hb1]), if_neg (by simp [hb2]), if_neg (by simp [hb3]),
      if_neg (by simp [hb4]), if_neg hamt,
      if_neg (not_or.mpr ⟨Nat.not_lt.mpr hmin, Nat.not_lt.mpr hmax⟩), if_pos hown]
  · intro c hb1 hb2 hb3 hb4 hamt hmin hmax hown hmint
    simp only [Sol.process_deposit]
    rw [if_neg (by simp [hb1]), if_neg (by simp [hb2]), if_neg (by simp [hb3]),
      if_neg (by simp [hb4]), if_neg hamt,
      if_neg (not_or.mpr ⟨Nat.not_lt.mpr hmin, Nat.not_lt.mpr hmax⟩),
      if_neg (by simp [hown]), if_pos hmint]
  · intro c hb1 hb2 hb3 hb4 hamt hmin hmax hown hmint hpda hlam
    simp only [Sol.process_deposit]
    rw [if_neg (by simp [hb1]), if_neg (by simp [hb2]), if_neg (by simp [hb3]),
      if_neg (by simp [hb4]), if_neg hamt,
      if_neg (not_or.mpr ⟨Nat.not_lt.mpr hmin, Nat.not_lt.mpr hmax⟩),
      if_neg (by simp [hown]), if_neg (by simp [hmint]), if_neg (by simp [hpda]),
      if_pos hlam]
  · intro bytes hb
    exact parseInstruction_violation bytes (Or.inl hb)

/-- A valid `Open` (Deposit) invocation of the hardened program. -/
def solDepositCtx : Sol.DepositCtx :=
  { programId := 99
    depositorKey := 10
    depositorIsSigner := true
    depositAccountKey := 20
    depositAccountLamports := 0
    depositorTokenKey := 30
    depositorTokenOwner := 10
    depositorTokenMint := Sol.wsolMint
    depositTokenKey := 40
    tokenProgramKey := splTokenId
    systemProgramKey := systemProgramId
    rentSysvarKey := rentSysvarId
    rentRecordLamports := 1000
    rentTokenLamports := 2000
    depositPda := 20
    bump := 255
    tokenPda := 40
    tokenBump := 254
    now := 1700000000
    deposit_seed := [115, 49]
    receiver := 11
    amount := 1000
    timeout_seconds := 86400 }

/-- Witness for `open_rejections_amended` at concrete invocations differing
from a valid one in exactly the rejected aspect. -/
theorem open_rejections_amended_witness :
    Sol.process_deposit { solDepositCtx with amount := 0 } = .error .zeroAmount ∧
    Sol.process_deposit { solDepositCtx with timeout_seconds := 10 } =
      .error .invalidTimeout ∧
    Sol.process_deposit { solDepositCtx with depositorTokenOwner := 77 } =
      .error .fundingOwnerMismatch ∧
    Sol.process_deposit { solDepositCtx with depositorTokenMint := 77 } =
      .error .fundingMintMismatch ∧
    Sol.process_deposit { solDepositCtx with depositAccountLamports := 5 } =
      .error .alreadyInitialized ∧
    Sol.parseInstruction
        (0 :: 0 :: 0 :: 0 :: 33 :: 0 :: 0 :: 0 :: List.replicate 100 97) =
      .error .invalidInstructionData :=
  ⟨open_rejections_amended.1 _ rfl rfl rfl rfl rfl,
   open_rejections_amended.2.1 _ rfl rfl rfl rfl (by decide) (by decide),
   open_rejections_amended.2.2.1 _ rfl rfl rfl rfl (by decide) (by decide)
     (by decide) (by decide),
   open_rejections_amended.2.2.2.1 _ rfl rfl rfl rfl (by decide) (by decide)
     (by decide) rfl (by decide),
   open_rejections_amended.2.2.2.2.1 _ rfl rfl rfl rfl (by decide) (by decide)
     (by decide) rfl rfl rfl (by decide),
   open_rejections_amended.2.2.2.2.2 _ (by decide)⟩
